import Mathlib

/-!
Verification development for the task-scheduling management layer of the
windows-automation-python repository (src/windows_system_utilities/schedule_task.py).

The Python module drives the Windows Task Scheduler COM API (Schedule.Service)
through win32com.  The shallow embedding below translates the module's pure
logic directly and models the external COM service as explicit state:

* the service session is a counter of opened connections (each public
  operation calls _connect() exactly once);
* the folder namespace is the list of absolute folder paths that exist;
* registered tasks are an association list keyed by (folder path, task name);
* requested runs are accumulated in a list.

Machine-level details that the claims do not touch (COM HRESULTs, XML task
definitions) are abstracted into an error enumeration and plain records.
All definitions are computable and evaluate by kernel reduction.
-/

namespace ScheduleTask

/-- Errors surfaced by the module or the external service.
`validation` stands for a Python ValueError (the spec's ValidationError):
unsupported trigger kind, malformed strptime input.
`notFound` stands for the COM error raised when GetFolder/GetTask misses.
`alreadyExists` stands for the COM error raised by CreateFolder on an
existing subfolder (ERROR_ALREADY_EXISTS). -/
inductive Err where
  | validation
  | notFound
  | alreadyExists
deriving Repr, DecidableEq

/-! ### Task Scheduler constants (verbatim from the source) -/

def TASK_CREATE_OR_UPDATE : Nat := 6
def TASK_LOGON_INTERACTIVE_TOKEN : Nat := 3
def TASK_LOGON_PASSWORD : Nat := 1
def TASK_LOGON_SERVICE_ACCOUNT : Nat := 5
def TASK_TRIGGER_TIME : Nat := 1
def TASK_TRIGGER_DAILY : Nat := 2
def TASK_TRIGGER_LOGON : Nat := 9
def TASK_ACTION_EXEC : Nat := 0

/-! ### Strings and paths

Structural re-implementations of the string splitting the source uses, so
that closed terms reduce inside the kernel. -/

/-- Split a character list at every occurrence of `sep` (keeping empty
segments, like Python str.split with an explicit separator). -/
def segsAux (sep : Char) : List Char → List Char → List (List Char)
  | [], cur => [cur.reverse]
  | c :: cs, cur =>
    if c = sep then cur.reverse :: segsAux sep cs [] else segsAux sep cs (c :: cur)

/-- Python s.split(sep) for a one-character separator. -/
def splitChar (sep : Char) (s : String) : List String :=
  (segsAux sep s.toList []).map (fun l => String.mk l)

/-- The nonempty backslash-separated segments of a folder path:
`[p for p in folder_path.strip("\\").split("\\") if p]` in the source. -/
def pathSegs (p : String) : List String :=
  (splitChar '\\' p).filter (fun s => decide (s ≠ ""))

/-- Join segments with single backslashes. -/
def joinSegs : List String → String
  | [] => ""
  | [s] => s
  | s :: rest => s ++ "\\" ++ joinSegs rest

/-- Canonical absolute form of a task-folder path: a leading backslash
followed by the nonempty segments.  The root is "\\". -/
def normalizePath (p : String) : String :=
  "\\" ++ joinSegs (pathSegs p)

/-- Absolute path of a direct child of a folder. -/
def joinPath (parent name : String) : String :=
  if parent = "\\" then parent ++ name else parent ++ "\\" ++ name

/-- Does the string begin with a backslash? -/
def startsWithBackslash (s : String) : Bool :=
  match s.toList with
  | [] => false
  | c :: _ => decide (c = '\\')

/-- Python str(Path(s)) for the inputs this module produces: the empty path
prints as ".", any other already-normalized path prints as itself. -/
def pathStr (s : String) : String :=
  if s = "" then "." else s

/-- Python Path(s).name: the last nonempty component after splitting on the
two separators; empty for the empty path. -/
def pathName (s : String) : String :=
  let parts := (splitChar '\\' s).foldr (fun t acc => splitChar '/' t ++ acc) []
  ((parts.filter (fun t => decide (t ≠ ""))).reverse).headD ""

/-- Python `x or d` for `x : str | None`: None and "" are falsy. -/
def orElse (o : Option String) (d : String) : String :=
  match o with
  | none => d
  | some s => if s = "" then d else s

/-! ### Data model -/

/-- One trigger of a task definition.  The source's add_daily_trigger sets
DaysInterval = 1 and a StartBoundary; add_once_trigger sets a StartBoundary;
add_logon_trigger carries nothing.  Start boundaries are modelled as epoch
seconds (the strftime("%Y-%m-%dT%H:%M:%S") string is a lossless rendering of
a whole-second timestamp). -/
inductive Trigger where
  | daily (startBoundary : Nat) (daysInterval : Nat)
  | once (startBoundary : Nat)
  | logon
deriving Repr, DecidableEq

/-- The single exec action of a task definition. -/
structure TaskAction where
  path : String
  arguments : String
  workingDir : Option String
deriving Repr, DecidableEq

/-- The Settings block populated by _base_task_def. -/
structure TaskSettings where
  enabled : Bool
  startWhenAvailable : Bool
  hidden : Bool
  runOnlyIfIdle : Bool
  wakeToRun : Bool
  multipleInstances : Nat
deriving Repr, DecidableEq

/-- A task definition as _base_task_def builds it (plus triggers attached
afterwards by register_task). -/
structure TaskDef where
  description : String
  author : String
  settings : TaskSettings
  runLevel : Nat
  actions : List TaskAction
  triggers : List Trigger
deriving Repr, DecidableEq

/-- The TaskParams dataclass, field for field.  Paths are carried as
strings.  The folder default is the hard-coded value from the source. -/
structure TaskParams where
  name : String
  exe : String
  arguments : String := ""
  start_when_available : Bool := true
  run_with_highest : Bool := true
  wake_to_run : Bool := false
  working_dir : Option String := none
  folder : String := "D:\\LifeLongLearning\\windows-automation-python"
  logon_type : Nat := TASK_LOGON_INTERACTIVE_TOKEN
  username : Option String := none
  password : Option String := none
deriving Repr, DecidableEq

/-- What the external service stores for a registered task: the submitted
definition together with the credentials and logon type passed to
RegisterTaskDefinition.  `taskState` is the service-owned lifecycle state
(0=Unknown 1=Disabled 2=Queued 3=Ready 4=Running per the source comment);
a freshly registered enabled task is Ready. -/
structure RegInfo where
  td : TaskDef
  userId : String
  pwd : String
  logonType : Nat
  taskState : Nat := 3
deriving Repr, DecidableEq

/-- State of the external Schedule.Service plus the session counter.
`folders` always contains the root "\\". -/
structure SchedSvc where
  folders : List String := ["\\"]
  tasks : List ((String × String) × RegInfo) := []
  runRequests : List (String × String) := []
  connects : Nat := 0
deriving Repr, DecidableEq

/-! ### External service primitives

Modelled from the spec's external-interface contract (section 6) and the
Windows COM semantics the source itself records: per the source comment in
_get_folder ("check if exists as absolute under root"), a GetFolder argument
that begins with a backslash is resolved as an absolute path from the root,
and the service-level GetFolder accepts a path with or without the leading
backslash. -/

/-- ITaskService.GetFolder: look the path up in the namespace. -/
def svcGetFolder (folders : List String) (path : String) : Option String :=
  let n := normalizePath path
  if folders.contains n then some n else none

/-- ITaskFolder.GetFolder: a leading backslash means absolute from the
root; otherwise relative to the folder. -/
def folderGetFolder (folders : List String) (parent rel : String) : Option String :=
  if startsWithBackslash rel then
    svcGetFolder folders rel
  else
    let c := joinPath parent rel
    if folders.contains c then some c else none

/-- ITaskFolder.CreateFolder: create a direct child; the service rejects a
name that already exists there. -/
def folderCreateFolder (folders : List String) (parent name : String) :
    List String × Except Err String :=
  let c := joinPath parent name
  if folders.contains c then (folders, Except.error Err.alreadyExists)
  else (folders ++ [c], Except.ok c)

/-- ITaskFolder.GetTask by name within a folder; the COM call raises for a
missing name. -/
def GetTask (tasks : List ((String × String) × RegInfo)) (folder name : String) :
    Option RegInfo :=
  match tasks with
  | [] => none
  | e :: rest => if e.1 = (folder, name) then some e.2 else GetTask rest folder name

/-- Replace the entry at `key` or append a fresh one. -/
def upsert (key : String × String) (info : RegInfo) :
    List ((String × String) × RegInfo) → List ((String × String) × RegInfo)
  | [] => [(key, info)]
  | e :: rest => if e.1 = key then (key, info) :: rest else e :: upsert key info rest

/-- ITaskFolder.RegisterTaskDefinition with flags = TASK_CREATE_OR_UPDATE
(6), the only mode the source uses: create the task or replace the existing
definition wholesale. -/
def RegisterTaskDefinition (tasks : List ((String × String) × RegInfo))
    (folder name : String) (td : TaskDef) (_flags : Nat)
    (userId pwd : String) (logonType : Nat) :
    List ((String × String) × RegInfo) :=
  upsert (folder, name) { td := td, userId := userId, pwd := pwd, logonType := logonType } tasks

/-! ### The module's functions -/

/-- _get_folder(svc, folder_path): try svc.GetFolder(folder_path); on
failure walk the segments from the root, descending into
parent.GetFolder("\\" + part) when that (root-absolute) lookup succeeds and
calling parent.CreateFolder(part) otherwise.  A CreateFolder rejection
propagates. -/
def getFolderGo (folders : List String) (parent : String) :
    List String → List String × Except Err String
  | [] => (folders, Except.ok parent)
  | part :: rest =>
    match folderGetFolder folders parent ("\\" ++ part) with
    | some f => getFolderGo folders f rest
    | none =>
      match folderCreateFolder folders parent part with
      | (fs, Except.ok f) => getFolderGo fs f rest
      | (fs, Except.error e) => (fs, Except.error e)

def _get_folder (folders : List String) (folder_path : String) :
    List String × Except Err String :=
  match svcGetFolder folders folder_path with
  | some f => (folders, Except.ok f)
  | none => getFolderGo folders "\\" (pathSegs folder_path)

/-- _base_task_def(svc, params): registration info, settings, principal
run level and the single exec action.  No triggers yet, and no validation
of any field. -/
def _base_task_def (params : TaskParams) : TaskDef :=
  { description := "Created by Python for " ++ pathName params.exe
  , author := orElse params.username "CurrentUser"
  , settings :=
      { enabled := true
      , startWhenAvailable := params.start_when_available
      , hidden := false
      , runOnlyIfIdle := false
      , wakeToRun := params.wake_to_run
      , multipleInstances := 0 }
  , runLevel := if params.run_with_highest then 1 else 0
  , actions :=
      [ { path := pathStr params.exe
        , arguments := params.arguments  -- params.arguments or "" is the identity on str
        , workingDir := params.working_dir.map pathStr } ]
  , triggers := [] }

def add_daily_trigger (td : TaskDef) (start_time : Nat) : TaskDef :=
  { td with triggers := td.triggers ++ [Trigger.daily start_time 1] }

def add_once_trigger (td : TaskDef) (run_at : Nat) : TaskDef :=
  { td with triggers := td.triggers ++ [Trigger.once run_at] }

def add_logon_trigger (td : TaskDef) : TaskDef :=
  { td with triggers := td.triggers ++ [Trigger.logon] }

/-- The trigger dispatch of register_task: daily and once default a missing
`when` to now + 2 minutes (datetime is always truthy, so `when or default`
is exactly an Option default); any other kind raises ValueError. -/
def attach_trigger (td : TaskDef) (trigger : String) (now : Nat)
    (when : Option Nat) : Except Err TaskDef :=
  if trigger = "daily" then Except.ok (add_daily_trigger td (when.getD (now + 120)))
  else if trigger = "once" then Except.ok (add_once_trigger td (when.getD (now + 120)))
  else if trigger = "logon" then Except.ok (add_logon_trigger td)
  else Except.error Err.validation

/-- register_task(params, trigger, when): connect, resolve the folder,
build the base definition, attach the trigger (raising ValueError for an
unsupported kind), then submit RegisterTaskDefinition with
TASK_CREATE_OR_UPDATE and `params.username or ""` / `params.password or ""`.
`now` is the datetime.now() clock value at the call. -/
def register_task (st : SchedSvc) (now : Nat) (params : TaskParams)
    (trigger : String) (when : Option Nat := none) : SchedSvc × Except Err Unit :=
  let st1 : SchedSvc := { st with connects := st.connects + 1 }
  match _get_folder st1.folders params.folder with
  | (fs, Except.error e) => ({ st1 with folders := fs }, Except.error e)
  | (fs, Except.ok folder) =>
    match attach_trigger (_base_task_def params) trigger now when with
    | Except.error e => ({ st1 with folders := fs }, Except.error e)
    | Except.ok td =>
      ({ st1 with
          folders := fs
          tasks := RegisterTaskDefinition st1.tasks folder params.name td
            TASK_CREATE_OR_UPDATE (orElse params.username "")
            (orElse params.password "") params.logon_type },
       Except.ok ())

/-- run_task(name, folder): connect, resolve the folder, GetTask (raises
for a missing name, so no run is requested), then Run(""). -/
def run_task (st : SchedSvc) (name : String) (folder : String := "\\") :
    SchedSvc × Except Err Unit :=
  let st1 : SchedSvc := { st with connects := st.connects + 1 }
  match _get_folder st1.folders folder with
  | (fs, Except.error e) => ({ st1 with folders := fs }, Except.error e)
  | (fs, Except.ok f) =>
    match GetTask st1.tasks f name with
    | none => ({ st1 with folders := fs }, Except.error Err.notFound)
    | some _ =>
      ({ st1 with folders := fs, runRequests := st1.runRequests ++ [(f, name)] },
       Except.ok ())

/-- The record list_tasks logs for each registered task: Name, State,
NextRunTime, Path. -/
structure TaskRow where
  name : String
  state : Nat
  nextRun : Option Nat
  path : String
deriving Repr, DecidableEq

/-- Start boundaries of the time-based triggers, in order. -/
def startBoundaries : List Trigger → List Nat
  | [] => []
  | Trigger.daily b _ :: ts => b :: startBoundaries ts
  | Trigger.once b :: ts => b :: startBoundaries ts
  | Trigger.logon :: ts => startBoundaries ts

/-- Modelled from the spec: NextRunTime is computed by the external
service, here as the earliest trigger start boundary. -/
def nextRunOf (td : TaskDef) : Option Nat :=
  match startBoundaries td.triggers with
  | [] => none
  | b :: bs => some (bs.foldl Nat.min b)

/-- The rows the service reports for GetTasks(0) on a folder, derived from
nothing but the service's current task store. -/
def taskRows (tasks : List ((String × String) × RegInfo)) (f : String) :
    List TaskRow :=
  (tasks.filter (fun e => decide (e.1.1 = f))).map
    (fun e => { name := e.1.2, state := e.2.taskState
              , nextRun := nextRunOf e.2.td, path := joinPath e.1.1 e.1.2 })

/-- list_tasks(folder): connect, resolve the folder, enumerate
f.GetTasks(0) and log one row per task.  The model returns the logged
rows; nothing is cached on the client. -/
def list_tasks (st : SchedSvc) (folder : String := "\\") :
    SchedSvc × Except Err (List TaskRow) :=
  let st1 : SchedSvc := { st with connects := st.connects + 1 }
  match _get_folder st1.folders folder with
  | (fs, Except.error e) => ({ st1 with folders := fs }, Except.error e)
  | (fs, Except.ok f) => ({ st1 with folders := fs }, Except.ok (taskRows st1.tasks f))

/-! ### The command-line register entry point

main() parses the register subcommand, converts --at with
datetime.strptime(args.at, "%Y-%m-%dT%H:%M:%S") — a ValueError from there
is raised before any service call — builds a TaskParams and calls
register_task.  The timestamp parser below models CPython strptime for
this fixed format: %Y is exactly four digits, the numeric fields take one
or two digits with their usual ranges, the literal T matches
case-insensitively (strptime compiles its pattern with IGNORECASE), and
the datetime constructor then enforces a real calendar date with
year >= 1 and second <= 59. -/

def isLeap (y : Nat) : Bool :=
  (y % 4 = 0 && y % 100 ≠ 0) || y % 400 = 0

def daysInMonth (y m : Nat) : Nat :=
  if m = 2 then (if isLeap y then 29 else 28)
  else if m = 4 ∨ m = 6 ∨ m = 9 ∨ m = 11 then 30
  else 31

/-- Numeric value of a digit list, none on a non-digit. -/
def natOfDigits : List Char → Nat → Option Nat
  | [], acc => some acc
  | c :: cs, acc =>
    if c.isDigit then natOfDigits cs (acc * 10 + (c.toNat - 48)) else none

/-- A field of `lo` to `hi` digits. -/
def parseDigits (lo hi : Nat) (s : String) : Option Nat :=
  let cs := s.toList
  if lo ≤ cs.length ∧ cs.length ≤ hi then natOfDigits cs 0 else none

/-- datetime.strptime(s, "%Y-%m-%dT%H:%M:%S"), as year/month/day/
hour/minute/second; none exactly when CPython raises ValueError. -/
def strptimeTs (s : String) : Option (Nat × Nat × Nat × Nat × Nat × Nat) :=
  match splitChar '-' s with
  | [ys, ms, rest] =>
    match splitChar 'T' (String.mk (rest.toList.map Char.toUpper)) with
    | [ds, time] =>
      match splitChar ':' time with
      | [hs, mis, ss] =>
        match parseDigits 4 4 ys, parseDigits 1 2 ms, parseDigits 1 2 ds,
              parseDigits 1 2 hs, parseDigits 1 2 mis, parseDigits 1 2 ss with
        | some y, some mo, some d, some h, some mi, some sec =>
          if 1 ≤ y ∧ 1 ≤ mo ∧ mo ≤ 12 ∧ 1 ≤ d ∧ d ≤ daysInMonth y mo ∧
             h ≤ 23 ∧ mi ≤ 59 ∧ sec ≤ 59
          then some (y, mo, d, h, mi, sec) else none
        | _, _, _, _, _, _ => none
      | _ => none
    | _ => none
  | _ => none

/-- Leap days strictly before year `y` (proleptic Gregorian, y >= 1). -/
def leapsBefore (y : Nat) : Nat :=
  (y - 1) / 4 - (y - 1) / 100 + (y - 1) / 400

/-- Days of year `y` before month `m`. -/
def daysBeforeMonth (y m : Nat) : Nat :=
  (List.range (m - 1)).foldl (fun acc i => acc + daysInMonth y (i + 1)) 0

/-- Whole days from 0001-01-01 (like datetime.toordinal, minus one). -/
def toOrdinal (y m d : Nat) : Nat :=
  365 * (y - 1) + leapsBefore y + daysBeforeMonth y m + (d - 1)

/-- A parsed timestamp as seconds on the proleptic Gregorian calendar; the
datetime value main passes to register_task. -/
def toEpoch : Nat × Nat × Nat × Nat × Nat × Nat → Nat
  | (y, mo, d, h, mi, s) => 86400 * toOrdinal y mo d + 3600 * h + 60 * mi + s

/-- The register subcommand's arguments after argparse, with argparse's
defaults.  argparse restricts trigger to daily|once|logon and logon to
interactive|password|service. -/
structure RegisterArgs where
  name : String
  exe : String
  args : String := ""
  folder : String := "\\"
  trigger : String
  «at» : Option String := none
  workdir : Option String := none
  highest : Bool := false
  wake : Bool := false
  logon : String := "interactive"
  username : Option String := none
  password : Option String := none
deriving Repr, DecidableEq

/-- The logon_map dict of main.  argparse's choices make any other key
unreachable, so the final branch is arbitrary. -/
def logon_map (s : String) : Nat :=
  if s = "interactive" then TASK_LOGON_INTERACTIVE_TOKEN
  else if s = "password" then TASK_LOGON_PASSWORD
  else if s = "service" then TASK_LOGON_SERVICE_ACCOUNT
  else TASK_LOGON_INTERACTIVE_TOKEN

/-- The TaskParams main builds from the parsed arguments.
workdir = Path(args.workdir) if args.workdir else None: an empty string is
falsy and becomes None. -/
def paramsFromArgs (a : RegisterArgs) : TaskParams :=
  { name := a.name
  , exe := a.exe
  , arguments := a.args
  , working_dir :=
      match a.workdir with
      | some w => if w = "" then none else some w
      | none => none
  , folder := a.folder
  , run_with_highest := a.highest
  , wake_to_run := a.wake
  , logon_type := logon_map a.logon
  , username := a.username
  , password := a.password }

/-- The register branch of main(): `if args.at:` is a truthiness test, so
None and the empty string both leave dt = None; otherwise strptime parses
the string and a ValueError aborts the command before any service call. -/
def cmd_register (st : SchedSvc) (now : Nat) (a : RegisterArgs) :
    SchedSvc × Except Err Unit :=
  match a.«at» with
  | some ts =>
    if ts = "" then register_task st now (paramsFromArgs a) a.trigger none
    else
      match strptimeTs ts with
      | none => (st, Except.error Err.validation)
      | some dt => register_task st now (paramsFromArgs a) a.trigger (some (toEpoch dt))
  | none => register_task st now (paramsFromArgs a) a.trigger none

/-! ### Concrete sample data for witnesses -/

/-- A task definition with one once-trigger at time 100. -/
def sampleDef : TaskDef :=
  add_once_trigger (_base_task_def { name := "T", exe := "C:\\x.exe", folder := "\\J" }) 100

/-- A service state holding one registered task T under folder \J. -/
def sampleSvc : SchedSvc :=
  { folders := ["\\", "\\J"]
  , tasks := [(("\\J", "T"),
      { td := sampleDef, userId := "", pwd := ""
      , logonType := TASK_LOGON_INTERACTIVE_TOKEN })]
  , runRequests := []
  , connects := 0 }

/-! ### General lemmas about the embedding -/

/-- Re-upserting the same key/value is a no-op. -/
theorem upsert_upsert (key : String × String) (info : RegInfo)
    (l : List ((String × String) × RegInfo)) :
    upsert key info (upsert key info l) = upsert key info l := by
  induction l with
  | nil => simp [upsert]
  | cons e rest ih =>
    by_cases h : e.1 = key
    · simp [upsert, h]
    · simp [upsert, h, ih]

/-- Lookup after upsert finds exactly the stored record. -/
theorem GetTask_upsert (tasks : List ((String × String) × RegInfo))
    (folder name : String) (info : RegInfo) :
    GetTask (upsert (folder, name) info tasks) folder name = some info := by
  induction tasks with
  | nil => simp [upsert, GetTask]
  | cons e rest ih =>
    by_cases h : e.1 = (folder, name)
    · simp [upsert, GetTask, h]
    · simp [upsert, GetTask, h, ih]

/-- When the service already knows the path, _get_folder is a pure lookup. -/
theorem get_folder_of_svc (folders : List String) (path f : String)
    (h : svcGetFolder folders path = some f) :
    _get_folder folders path = (folders, Except.ok f) := by
  unfold _get_folder
  rw [h]

/-- Evaluation of register_task when folder resolution and the trigger
dispatch both succeed. -/
theorem register_task_ok (st : SchedSvc) (now : Nat) (p : TaskParams)
    (trig : String) (when : Option Nat) (fs : List String) (f : String)
    (td : TaskDef)
    (hres : _get_folder st.folders p.folder = (fs, Except.ok f))
    (ha : attach_trigger (_base_task_def p) trig now when = Except.ok td) :
    register_task st now p trig when =
      ({ st with
          folders := fs
          tasks := upsert (f, p.name)
            { td := td, userId := orElse p.username ""
            , pwd := orElse p.password "", logonType := p.logon_type }
            st.tasks
          connects := st.connects + 1 }, Except.ok ()) := by
  simp [register_task, RegisterTaskDefinition, hres, ha]

/-- Evaluation of register_task when folder resolution succeeds but the
trigger dispatch raises. -/
theorem register_task_err (st : SchedSvc) (now : Nat) (p : TaskParams)
    (trig : String) (when : Option Nat) (fs : List String) (f : String)
    (e : Err)
    (hres : _get_folder st.folders p.folder = (fs, Except.ok f))
    (ha : attach_trigger (_base_task_def p) trig now when = Except.error e) :
    register_task st now p trig when =
      ({ st with folders := fs, connects := st.connects + 1 }, Except.error e) := by
  simp [register_task, hres, ha]

/-- The trigger dispatch rejects every kind outside daily/once/logon. -/
theorem attach_trigger_unsupported (td : TaskDef) (trig : String) (now : Nat)
    (when : Option Nat)
    (h1 : trig ≠ "daily") (h2 : trig ≠ "once") (h3 : trig ≠ "logon") :
    attach_trigger td trig now when = Except.error Err.validation := by
  simp [attach_trigger, h1, h2, h3]

/-! ### Claim theorems -/

/-- C1, counterexample: calling register_task on a fresh service with the
unsupported trigger kind "weekly" does fail with ValidationError, but a
connection has been opened (the connect counter reads 1, where the claim
requires no connection at all) and the target folder has been resolved and
created. -/
theorem C1_counterexample :
    (register_task {} 0 { name := "T", exe := "C:\\x.exe", folder := "\\Jobs" }
        "weekly" none).2 = Except.error Err.validation ∧
    (register_task {} 0 { name := "T", exe := "C:\\x.exe", folder := "\\Jobs" }
        "weekly" none).1.connects = 1 ∧
    (register_task {} 0 { name := "T", exe := "C:\\x.exe", folder := "\\Jobs" }
        "weekly" none).1.folders = ["\\", "\\Jobs"] :=
  ⟨rfl, rfl, rfl⟩

/-- C1, amended: for every trigger kind outside daily/once/logon,
register_task fails with ValidationError and submits no registration — the
task store and run requests are untouched — but only after a connection has
been opened (the counter increments) and the target folder has been
resolved, creating missing segments. -/
theorem C1_unsupported_trigger (st : SchedSvc) (now : Nat) (p : TaskParams)
    (when : Option Nat) (trig : String) (fs : List String) (f : String)
    (h1 : trig ≠ "daily") (h2 : trig ≠ "once") (h3 : trig ≠ "logon")
    (hres : _get_folder st.folders p.folder = (fs, Except.ok f)) :
    register_task st now p trig when =
      ({ st with folders := fs, connects := st.connects + 1 },
       Except.error Err.validation) :=
  register_task_err st now p trig when fs f Err.validation hres
    (attach_trigger_unsupported _ trig now when h1 h2 h3)

/-- Witness for C1_unsupported_trigger at trigger kind "weekly". -/
theorem C1_unsupported_trigger_witness :
    register_task {} 0 { name := "T", exe := "C:\\x.exe", folder := "\\Jobs" }
        "weekly" none =
      ({ folders := ["\\", "\\Jobs"], tasks := [], runRequests := [], connects := 1 },
       Except.error Err.validation) :=
  C1_unsupported_trigger {} 0 { name := "T", exe := "C:\\x.exe", folder := "\\Jobs" }
    none "weekly" ["\\", "\\Jobs"] "\\Jobs"
    (by decide) (by decide) (by decide) rfl

/-- C2, code bug, evaluated at the failing input: with folders \A and \A\B
already existing (and no \B at the root), resolving \A\B\C should create
exactly the one missing segment C under \A\B; instead _get_folder descends
to \A, misses \A\B because its per-segment existence check looks the
segment up under the root, calls CreateFolder("B") on \A, and the service
rejects it as already existing — nothing is created and the call raises. -/
theorem C2_missing_segment_not_created :
    _get_folder ["\\", "\\A", "\\A\\B"] "\\A\\B\\C"
      = (["\\", "\\A", "\\A\\B"], Except.error Err.alreadyExists) :=
  rfl

/-- C3, counterexample: register_task is not idempotent under identical
input.  With folder \A\B\A on a fresh service the first call succeeds (the
walk ends on the root-level \A it itself created), but the second identical
call hits CreateFolder("B") on \A, which already exists, and fails instead
of replacing the registration. -/
theorem C3_counterexample :
    (register_task {} 0 { name := "T", exe := "x", folder := "\\A\\B\\A" }
        "logon" none).2 = Except.ok () ∧
    (register_task
        (register_task {} 0 { name := "T", exe := "x", folder := "\\A\\B\\A" }
          "logon" none).1
        0 { name := "T", exe := "x", folder := "\\A\\B\\A" } "logon" none).2
      = Except.error Err.alreadyExists :=
  ⟨rfl, rfl⟩

/-- C3, amended: register is an unconditional upsert keyed by
(folder, name) — whatever the prior task store holds at that key, the
entire stored definition is the freshly built one — and, provided repeating
the folder resolution returns the same folder without touching the
namespace (true for well-formed paths whose segments the first call created
under their parents, but violable for degenerate paths because the
resolver checks segment existence under the root), a second call with
identical input leaves the task store exactly as after one call, and the
stored definition has exactly one trigger and one action. -/
theorem C3_register_upsert_idempotent (st : SchedSvc) (now : Nat)
    (p : TaskParams) (trig : String) (when : Option Nat) (fs : List String)
    (f : String)
    (htr : trig = "daily" ∨ trig = "once" ∨ trig = "logon")
    (hres : _get_folder st.folders p.folder = (fs, Except.ok f))
    (hres2 : _get_folder fs p.folder = (fs, Except.ok f)) :
    (register_task st now p trig when).2 = Except.ok () ∧
    (register_task (register_task st now p trig when).1 now p trig when).2
      = Except.ok () ∧
    (register_task (register_task st now p trig when).1 now p trig when).1.tasks
      = (register_task st now p trig when).1.tasks ∧
    (register_task (register_task st now p trig when).1 now p trig when).1.folders
      = (register_task st now p trig when).1.folders ∧
    ∃ info, GetTask (register_task st now p trig when).1.tasks f p.name = some info ∧
      info.td.triggers.length = 1 ∧ info.td.actions.length = 1 := by
  have key : ∀ td : TaskDef,
      attach_trigger (_base_task_def p) trig now when = Except.ok td →
      td.triggers.length = 1 → td.actions.length = 1 →
      (register_task st now p trig when).2 = Except.ok () ∧
      (register_task (register_task st now p trig when).1 now p trig when).2
        = Except.ok () ∧
      (register_task (register_task st now p trig when).1 now p trig when).1.tasks
        = (register_task st now p trig when).1.tasks ∧
      (register_task (register_task st now p trig when).1 now p trig when).1.folders
        = (register_task st now p trig when).1.folders ∧
      ∃ info, GetTask (register_task st now p trig when).1.tasks f p.name = some info ∧
        info.td.triggers.length = 1 ∧ info.td.actions.length = 1 := by
    intro td ha hone hact
    rw [register_task_ok st now p trig when fs f td hres ha]
    rw [register_task_ok _ now p trig when fs f td hres2 ha]
    exact ⟨rfl, rfl, upsert_upsert _ _ _, rfl,
      ⟨_, GetTask_upsert st.tasks f p.name _, hone, hact⟩⟩
  rcases htr with h | h | h <;> subst h
  · exact key _ rfl rfl rfl
  · exact key _ rfl rfl rfl
  · exact key _ rfl rfl rfl

/-- Witness for C3_register_upsert_idempotent with a well-formed folder. -/
theorem C3_register_upsert_idempotent_witness :
    (register_task {} 7 { name := "T", exe := "x", folder := "\\Jobs" }
        "once" (some 5)).2 = Except.ok () ∧
    (register_task
        (register_task {} 7 { name := "T", exe := "x", folder := "\\Jobs" }
          "once" (some 5)).1
        7 { name := "T", exe := "x", folder := "\\Jobs" } "once" (some 5)).2
      = Except.ok () ∧
    (register_task
        (register_task {} 7 { name := "T", exe := "x", folder := "\\Jobs" }
          "once" (some 5)).1
        7 { name := "T", exe := "x", folder := "\\Jobs" } "once" (some 5)).1.tasks
      = (register_task {} 7 { name := "T", exe := "x", folder := "\\Jobs" }
          "once" (some 5)).1.tasks ∧
    (register_task
        (register_task {} 7 { name := "T", exe := "x", folder := "\\Jobs" }
          "once" (some 5)).1
        7 { name := "T", exe := "x", folder := "\\Jobs" } "once" (some 5)).1.folders
      = (register_task {} 7 { name := "T", exe := "x", folder := "\\Jobs" }
          "once" (some 5)).1.folders ∧
    ∃ info, GetTask (register_task {} 7 { name := "T", exe := "x", folder := "\\Jobs" }
        "once" (some 5)).1.tasks "\\Jobs" "T" = some info ∧
      info.td.triggers.length = 1 ∧ info.td.actions.length = 1 :=
  C3_register_upsert_idempotent {} 7 { name := "T", exe := "x", folder := "\\Jobs" }
    "once" (some 5) ["\\", "\\Jobs"] "\\Jobs"
    (Or.inr (Or.inl rfl)) rfl rfl

/-- C4, counterexample: with interactive-current-user logon but a username
and password set in the params, register_task forwards those values to
RegisterTaskDefinition — the submitted credentials are "bob"/"pw", not
empty strings as the claim requires. -/
theorem C4_counterexample :
    ({ name := "T", exe := "x", folder := "\\Jobs",
       username := some "bob", password := some "pw" } : TaskParams).logon_type
      = TASK_LOGON_INTERACTIVE_TOKEN ∧
    (GetTask (register_task {} 0
        { name := "T", exe := "x", folder := "\\Jobs",
          username := some "bob", password := some "pw" } "logon" none).1.tasks
        "\\Jobs" "T").map (fun i => i.userId) = some "bob" ∧
    (GetTask (register_task {} 0
        { name := "T", exe := "x", folder := "\\Jobs",
          username := some "bob", password := some "pw" } "logon" none).1.tasks
        "\\Jobs" "T").map (fun i => i.pwd) = some "pw" ∧
    ("bob" : String) ≠ "" :=
  ⟨rfl, rfl, rfl, by decide⟩

/-- C4, amended: for every params and supported trigger kind, the
credentials submitted with RegisterTaskDefinition are
`params.username or ""` and `params.password or ""` — None (or an empty
string) becomes empty, any other value is forwarded verbatim — regardless
of the logon kind; in particular interactive-current-user logon submits
empty credentials only when the params carry none. -/
theorem C4_credentials_forwarded (st : SchedSvc) (now : Nat) (p : TaskParams)
    (trig : String) (when : Option Nat) (fs : List String) (f : String)
    (htr : trig = "daily" ∨ trig = "once" ∨ trig = "logon")
    (hres : _get_folder st.folders p.folder = (fs, Except.ok f)) :
    ∃ info, GetTask (register_task st now p trig when).1.tasks f p.name = some info ∧
      info.userId = orElse p.username "" ∧ info.pwd = orElse p.password "" ∧
      info.logonType = p.logon_type := by
  have key : ∀ td : TaskDef,
      attach_trigger (_base_task_def p) trig now when = Except.ok td →
      ∃ info, GetTask (register_task st now p trig when).1.tasks f p.name = some info ∧
        info.userId = orElse p.username "" ∧ info.pwd = orElse p.password "" ∧
        info.logonType = p.logon_type := by
    intro td ha
    rw [register_task_ok st now p trig when fs f td hres ha]
    exact ⟨_, GetTask_upsert st.tasks f p.name _, rfl, rfl, rfl⟩
  rcases htr with h | h | h <;> subst h
  · exact key _ rfl
  · exact key _ rfl
  · exact key _ rfl

/-- Witness for C4_credentials_forwarded: interactive logon with a
username set forwards that username. -/
theorem C4_credentials_forwarded_witness :
    ∃ info, GetTask (register_task {} 0
        { name := "T", exe := "x", folder := "\\Jobs", username := some "alice" }
        "logon" none).1.tasks "\\Jobs" "T" = some info ∧
      info.userId = orElse (some "alice") "" ∧ info.pwd = orElse none "" ∧
      info.logonType = ({ name := "T", exe := "x", folder := "\\Jobs", username := some "alice" } : TaskParams).logon_type :=
  C4_credentials_forwarded {} 0
    { name := "T", exe := "x", folder := "\\Jobs", username := some "alice" }
    "logon" none ["\\", "\\Jobs"] "\\Jobs" (Or.inr (Or.inr rfl)) rfl

/-- C5, counterexample: an empty executable path is not validated anywhere.
register_task with exe = "" succeeds, and the built definition's action
path is "." (the string form of Python's empty Path) rather than a
ValidationError being raised. -/
theorem C5_counterexample :
    (register_task {} 0 { name := "T", exe := "", folder := "\\Jobs" }
        "once" (some 100)).2 = Except.ok () ∧
    (_base_task_def { name := "T", exe := "", folder := "\\Jobs" }).actions.map
        (fun a => a.path) = ["."] :=
  ⟨rfl, rfl⟩

/-- C5, amended: for every params whose executable path is empty, building
the task definition performs no validation and register_task succeeds
(given the folder resolves and the trigger kind is supported); the
registered definition carries the action path ".", str of the empty
Path. -/
theorem C5_empty_exe_not_validated (st : SchedSvc) (now : Nat) (p : TaskParams)
    (trig : String) (when : Option Nat) (fs : List String) (f : String)
    (hexe : p.exe = "")
    (htr : trig = "daily" ∨ trig = "once" ∨ trig = "logon")
    (hres : _get_folder st.folders p.folder = (fs, Except.ok f)) :
    (register_task st now p trig when).2 = Except.ok () ∧
    ∃ info, GetTask (register_task st now p trig when).1.tasks f p.name = some info ∧
      info.td.actions.map (fun a => a.path) = ["."] := by
  have hpath : pathStr p.exe = "." := by rw [hexe]; rfl
  have key : ∀ td : TaskDef,
      attach_trigger (_base_task_def p) trig now when = Except.ok td →
      td.actions.map (fun a => a.path) = ["."] →
      (register_task st now p trig when).2 = Except.ok () ∧
      ∃ info, GetTask (register_task st now p trig when).1.tasks f p.name = some info ∧
        info.td.actions.map (fun a => a.path) = ["."] := by
    intro td ha hact
    rw [register_task_ok st now p trig when fs f td hres ha]
    exact ⟨rfl, _, GetTask_upsert st.tasks f p.name _, hact⟩
  rcases htr with h | h | h <;> subst h
  · exact key _ rfl (by simp [add_daily_trigger, _base_task_def, hpath])
  · exact key _ rfl (by simp [add_once_trigger, _base_task_def, hpath])
  · exact key _ rfl (by simp [add_logon_trigger, _base_task_def, hpath])

/-- Witness for C5_empty_exe_not_validated. -/
theorem C5_empty_exe_not_validated_witness :
    (register_task {} 0 { name := "T", exe := "", folder := "\\Jobs" }
        "daily" (some 9)).2 = Except.ok () ∧
    ∃ info, GetTask (register_task {} 0
        { name := "T", exe := "", folder := "\\Jobs" } "daily" (some 9)).1.tasks
        "\\Jobs" "T" = some info ∧
      info.td.actions.map (fun a => a.path) = ["."] :=
  C5_empty_exe_not_validated {} 0 { name := "T", exe := "", folder := "\\Jobs" }
    "daily" (some 9) ["\\", "\\Jobs"] "\\Jobs" rfl (Or.inl rfl) rfl

/-- C6: list_tasks reads fresh from the external service on every call.
For any service state whose namespace already contains the folder, the
call returns exactly the rows derived from the service's current task
store — a finite list, hence restartable — and mutates nothing but the
connection counter; there is no client-side cache that could go stale. -/
theorem C6_list_reads_current_state (st : SchedSvc) (folder g : String)
    (h : svcGetFolder st.folders folder = some g) :
    list_tasks st folder =
      ({ st with connects := st.connects + 1 },
       Except.ok (taskRows st.tasks g)) := by
  simp [list_tasks, get_folder_of_svc st.folders folder g h]

/-- Witness for C6_list_reads_current_state on a one-task state. -/
theorem C6_list_reads_current_state_witness :
    list_tasks sampleSvc "\\J" =
      ({ sampleSvc with connects := 1 },
       Except.ok [{ name := "T", state := 3, nextRun := some 100, path := "\\J\\T" }]) :=
  C6_list_reads_current_state sampleSvc "\\J" "\\J" rfl

/-- C7, counterexample: the at argument "" is not a timestamp of the
required form, yet the register command does not fail — main's
`if args.at:` treats the empty string as absent, and registration
proceeds. -/
theorem C7_counterexample :
    strptimeTs "" = none ∧
    (cmd_register {} 0 { name := "T", exe := "x", trigger := "logon", folder := "\\Jobs", «at» := some "" }).2 = Except.ok () :=
  ⟨rfl, rfl⟩

/-- C7, amended: for every register invocation whose at argument is
present, nonempty, and rejected by strptime("%Y-%m-%dT%H:%M:%S"), the
command fails with ValidationError before any external call: the service
state — connection counter, folders, tasks, run requests — is returned
untouched, so no partial registration occurs.  (An empty at string is
instead treated as an omitted argument.) -/
theorem C7_bad_timestamp_fails_fast (st : SchedSvc) (now : Nat)
    (a : RegisterArgs) (ts : String)
    (hat : a.«at» = some ts) (hne : ts ≠ "") (hbad : strptimeTs ts = none) :
    cmd_register st now a = (st, Except.error Err.validation) := by
  simp [cmd_register, hat, hne, hbad]

/-- Witness for C7_bad_timestamp_fails_fast on the input "not-a-time". -/
theorem C7_bad_timestamp_fails_fast_witness :
    cmd_register {} 0 { name := "T", exe := "x", trigger := "daily", «at» := some "not-a-time" } = ({}, Except.error Err.validation) :=
  C7_bad_timestamp_fails_fast {} 0
    { name := "T", exe := "x", trigger := "daily", «at» := some "not-a-time" }
    "not-a-time" rfl (by decide) rfl

/-- C8: for every valid params registered with trigger kind daily or once
and no explicit when, the registration succeeds and the stored trigger's
start boundary is exactly the registration-time clock value plus 2 minutes
(120 seconds), which lies in [now, now + 2min]. -/
theorem C8_default_start_boundary (st : SchedSvc) (now : Nat) (p : TaskParams)
    (trig : String) (fs : List String) (f : String)
    (htr : trig = "daily" ∨ trig = "once")
    (hres : _get_folder st.folders p.folder = (fs, Except.ok f)) :
    (register_task st now p trig none).2 = Except.ok () ∧
    ∃ info, GetTask (register_task st now p trig none).1.tasks f p.name = some info ∧
      startBoundaries info.td.triggers = [now + 120] ∧ now ≤ now + 120 := by
  have key : ∀ td : TaskDef,
      attach_trigger (_base_task_def p) trig now none = Except.ok td →
      startBoundaries td.triggers = [now + 120] →
      (register_task st now p trig none).2 = Except.ok () ∧
      ∃ info, GetTask (register_task st now p trig none).1.tasks f p.name = some info ∧
        startBoundaries info.td.triggers = [now + 120] ∧ now ≤ now + 120 := by
    intro td ha hb
    rw [register_task_ok st now p trig none fs f td hres ha]
    exact ⟨rfl, _, GetTask_upsert st.tasks f p.name _, hb, Nat.le_add_right now 120⟩
  rcases htr with h | h <;> subst h
  · exact key _ rfl rfl
  · exact key _ rfl rfl

/-- Witness for C8_default_start_boundary with a daily trigger at clock
value 1000. -/
theorem C8_default_start_boundary_witness :
    (register_task {} 1000 { name := "T", exe := "x", folder := "\\Jobs" }
        "daily" none).2 = Except.ok () ∧
    ∃ info, GetTask (register_task {} 1000
        { name := "T", exe := "x", folder := "\\Jobs" } "daily" none).1.tasks
        "\\Jobs" "T" = some info ∧
      startBoundaries info.td.triggers = [1000 + 120] ∧ 1000 ≤ 1000 + 120 :=
  C8_default_start_boundary {} 1000 { name := "T", exe := "x", folder := "\\Jobs" }
    "daily" ["\\", "\\Jobs"] "\\Jobs" (Or.inl rfl) rfl

/-- C9: for every service state whose namespace contains the folder but
whose task store has no task of the given name in that folder, run_task
fails with NotFoundError (GetTask raises) and requests no run: the
returned state differs from the input only by the opened connection — run
requests, tasks and folders are untouched. -/
theorem C9_run_missing_task (st : SchedSvc) (name folder g : String)
    (hfold : svcGetFolder st.folders folder = some g)
    (hmiss : GetTask st.tasks g name = none) :
    run_task st name folder =
      ({ st with connects := st.connects + 1 }, Except.error Err.notFound) := by
  simp [run_task, get_folder_of_svc st.folders folder g hfold, hmiss]

/-- Witness for C9_run_missing_task: running the never-registered task
Ghost at the root of a fresh service. -/
theorem C9_run_missing_task_witness :
    run_task {} "Ghost" "\\" =
      ({ folders := ["\\"], tasks := [], runRequests := [], connects := 1 },
       Except.error Err.notFound) :=
  C9_run_missing_task {} "Ghost" "\\" "\\" rfl rfl

/-- C10: a TaskParams that leaves the folder field to its default targets
the hard-coded path D:\LifeLongLearning\windows-automation-python — not
the root — so a programmatic register_task with such params stores the
task under the folder resolved from that path (\D:\LifeLongLearning\
windows-automation-python in the service namespace) and not under the
root; only the command-line register entry point defaults the folder to
the root "\". -/
theorem C10_default_folder_hardcoded :
    (∀ n e : String, ({ name := n, exe := e } : TaskParams).folder
        = "D:\\LifeLongLearning\\windows-automation-python") ∧
    (∀ n e t : String, ({ name := n, exe := e, trigger := t } : RegisterArgs).folder
        = "\\") ∧
    ("D:\\LifeLongLearning\\windows-automation-python" : String) ≠ "\\" ∧
    (GetTask (register_task {} 0 { name := "T", exe := "C:\\x.exe" }
        "logon" none).1.tasks
        "\\D:\\LifeLongLearning\\windows-automation-python" "T").isSome = true ∧
    GetTask (register_task {} 0 { name := "T", exe := "C:\\x.exe" }
        "logon" none).1.tasks "\\" "T" = none :=
  ⟨fun _ _ => rfl, fun _ _ _ => rfl, by decide, rfl, rfl⟩

end ScheduleTask
